import Mathlib

/-!
Verification development for the Heavy3 code-audit scripts
(`skill/scripts/review.py` and `skill/scripts/council.py`).

The Python code is shallowly embedded: pure string manipulation becomes
functions on `String` / `List Char`, the network layer becomes explicit
inputs (each outbound call's outcome is a parameter), wall-clock time is a
parameter, and Python exceptions become `Except` / `Option` values.
Machine integers do not overflow in any modelled path, so numbers are `Nat`.
-/

/-! ## JSON values and `json.loads`

The stream decoder and the response extractors feed each payload through
`json.loads`.  We embed JSON values and a recursive-descent parser for
them.  Number literals are kept as their lexeme: no modelled code path
consumes a numeric value, only truthiness (`0`, `0.0` etc. are falsy).
Deliberate simplifications, none of which affect a modelled path: the
parser does not accept Python's non-standard `NaN`/`Infinity` literals,
accepts raw control characters inside strings, and does not combine
`\u` surrogate pairs. -/

inductive Json where
  | null
  | bool (b : Bool)
  | num (lexeme : String)
  | str (s : String)
  | arr (elems : List Json)
  | obj (fields : List (String × Json))
deriving Repr

/-- JSON insignificant whitespace. -/
def isJsonWs (c : Char) : Bool :=
  c = ' ' || c = '\t' || c = '\n' || c = '\r'

def skipWs : List Char → List Char
  | c :: cs => if isJsonWs c then skipWs cs else c :: cs
  | [] => []

def hexVal (c : Char) : Option Nat :=
  if '0' ≤ c ∧ c ≤ '9' then some (c.toNat - '0'.toNat)
  else if 'a' ≤ c ∧ c ≤ 'f' then some (c.toNat - 'a'.toNat + 10)
  else if 'A' ≤ c ∧ c ≤ 'F' then some (c.toNat - 'A'.toNat + 10)
  else none

def unescapeChar : Char → Option Char
  | '"' => some '"'
  | '\\' => some '\\'
  | '/' => some '/'
  | 'b' => some (Char.ofNat 8)
  | 'f' => some (Char.ofNat 12)
  | 'n' => some '\n'
  | 'r' => some '\r'
  | 't' => some '\t'
  | _ => none

/-- Body of a JSON string after the opening quote, accumulating decoded
characters in reverse. -/
def parseStringAux (acc : List Char) : List Char → Option (String × List Char)
  | [] => none
  | '"' :: rest => some (String.mk acc.reverse, rest)
  | '\\' :: rest =>
    match rest with
    | 'u' :: a :: b :: c :: d :: rest2 =>
      match hexVal a, hexVal b, hexVal c, hexVal d with
      | some ha, some hb, some hc, some hd =>
        parseStringAux (Char.ofNat (((ha * 16 + hb) * 16 + hc) * 16 + hd) :: acc) rest2
      | _, _, _, _ => none
    | e :: rest2 =>
      match unescapeChar e with
      | some c => parseStringAux (c :: acc) rest2
      | none => none
    | [] => none
  | c :: rest => parseStringAux (c :: acc) rest

def digitRun : List Char → List Char × List Char
  | c :: cs =>
    if c.isDigit then
      let (ds, rest) := digitRun cs
      (c :: ds, rest)
    else ([], c :: cs)
  | [] => ([], [])

/-- Strict JSON number grammar: optional minus, integer part without
leading zeros, optional fraction, optional exponent.  Returns the lexeme. -/
def parseNumberVal (cs : List Char) : Option (Json × List Char) :=
  let (sign, cs1) :=
    match cs with
    | '-' :: rest => (['-'], rest)
    | _ => (([] : List Char), cs)
  match digitRun cs1 with
  | ([], _) => none
  | (d :: ds, cs2) =>
    if d = '0' ∧ ds ≠ [] then none
    else
      let intPart := d :: ds
      let (fracPart, cs3) :=
        match cs2 with
        | '.' :: cs2a =>
          match digitRun cs2a with
          | ([], _) => (none, cs2)
          | (fs, cs2b) => (some ('.' :: fs), cs2b)
        | _ => (none, cs2)
      match fracPart, cs3 with
      | none, '.' :: _ => none
      | _, _ =>
        let (expPart, cs4) :=
          match cs3 with
          | e :: cs3a =>
            if e = 'e' ∨ e = 'E' then
              let (esign, cs3b) :=
                match cs3a with
                | '+' :: r => (['+'], r)
                | '-' :: r => (['-'], r)
                | _ => (([] : List Char), cs3a)
              match digitRun cs3b with
              | ([], _) => (none, cs3)
              | (es, cs3c) => (some (e :: esign ++ es), cs3c)
            else (none, cs3)
          | [] => (none, cs3)
        match expPart, cs4 with
        | none, e :: _ =>
          if e = 'e' ∨ e = 'E' then none
          else some (.num (String.mk (sign ++ intPart ++ (fracPart.getD []))), cs4)
        | _, _ =>
          some (.num (String.mk (sign ++ intPart ++ (fracPart.getD []) ++ (expPart.getD []))), cs4)

mutual

/-- Recursive-descent JSON value parser; `fuel` dominates the nesting
depth (every recursive step consumes at least one input character, so
`length + 2` fuel at top level is always enough). -/
def parseValue : Nat → List Char → Option (Json × List Char)
  | 0, _ => none
  | fuel + 1, cs =>
    match skipWs cs with
    | '{' :: rest =>
      match skipWs rest with
      | '}' :: rest2 => some (.obj [], rest2)
      | rest2 =>
        match parseMembers fuel rest2 with
        | some (fs, r) => some (.obj fs, r)
        | none => none
    | '[' :: rest =>
      match skipWs rest with
      | ']' :: rest2 => some (.arr [], rest2)
      | rest2 =>
        match parseElements fuel rest2 with
        | some (es, r) => some (.arr es, r)
        | none => none
    | '"' :: rest =>
      match parseStringAux [] rest with
      | some (s, r) => some (.str s, r)
      | none => none
    | 'n' :: 'u' :: 'l' :: 'l' :: rest => some (.null, rest)
    | 't' :: 'r' :: 'u' :: 'e' :: rest => some (.bool true, rest)
    | 'f' :: 'a' :: 'l' :: 's' :: 'e' :: rest => some (.bool false, rest)
    | cs2 => parseNumberVal cs2

/-- Object members after `\x7b` (first member must exist). -/
def parseMembers : Nat → List Char → Option (List (String × Json) × List Char)
  | 0, _ => none
  | fuel + 1, cs =>
    match skipWs cs with
    | '"' :: rest =>
      match parseStringAux [] rest with
      | none => none
      | some (key, r1) =>
        match skipWs r1 with
        | ':' :: r2 =>
          match parseValue fuel r2 with
          | none => none
          | some (v, r3) =>
            match skipWs r3 with
            | ',' :: r4 =>
              match parseMembers fuel r4 with
              | none => none
              | some (fs, r5) => some ((key, v) :: fs, r5)
            | '}' :: r4 => some ([(key, v)], r4)
            | _ => none
        | _ => none
    | _ => none

/-- Array elements after `[` (first element must exist). -/
def parseElements : Nat → List Char → Option (List Json × List Char)
  | 0, _ => none
  | fuel + 1, cs =>
    match parseValue fuel cs with
    | none => none
    | some (v, r1) =>
      match skipWs r1 with
      | ',' :: r2 =>
        match parseElements fuel r2 with
        | none => none
        | some (es, r3) => some (v :: es, r3)
      | ']' :: r2 => some ([v], r2)
      | _ => none

end

/-- Embedding of `json.loads` on a character sequence: `none` models a
raised `json.JSONDecodeError` (including trailing garbage). -/
def jsonLoadsChars (cs : List Char) : Option Json :=
  match parseValue (cs.length + 2) cs with
  | some (v, rest) => if skipWs rest = [] then some v else none
  | none => none

def json_loads (s : String) : Option Json := jsonLoadsChars s.data

/-- Lookup in a parsed JSON object.  `json.loads` builds a `dict`, where a
duplicated key keeps its last occurrence, hence the `foldl`. -/
def jsonLookup (fields : List (String × Json)) (key : String) : Option Json :=
  fields.foldl (fun acc kv => if kv.1 = key then some kv.2 else acc) none

/-- Mantissa of the lexeme is all zeros (`0`, `-0.00`, `0e5`, ...). -/
def numLexemeIsZero (l : String) : Bool :=
  (l.data.takeWhile (fun c => c ≠ 'e' ∧ c ≠ 'E')).all
    (fun c => !c.isDigit || c = '0')

/-- Python truthiness of a value produced by `json.loads`. -/
def Json.truthy : Json → Bool
  | .null => false
  | .bool b => b
  | .num l => !numLexemeIsZero l
  | .str s => s != ""
  | .arr es => !es.isEmpty
  | .obj fs => !fs.isEmpty

mutual

/-- Python `str()` of a value parsed from JSON; containers are rendered
in Python `repr` style (quoting/escaping inside containers is
approximated; no modelled code path depends on this rendering). -/
def pyStr : Json → String
  | .null => "None"
  | .bool true => "True"
  | .bool false => "False"
  | .num l => l
  | .str s => s
  | .arr es => "[" ++ pyReprList es ++ "]"
  | .obj fs => "\x7b" ++ pyReprFields fs ++ "\x7d"

def pyReprList : List Json → String
  | [] => ""
  | [x] => pyReprOne x
  | x :: xs => pyReprOne x ++ ", " ++ pyReprList xs

def pyReprFields : List (String × Json) → String
  | [] => ""
  | [kv] => "'" ++ kv.1 ++ "': " ++ pyReprOne kv.2
  | kv :: kvs => "'" ++ kv.1 ++ "': " ++ pyReprOne kv.2 ++ ", " ++ pyReprFields kvs

def pyReprOne : Json → String
  | .str s => "'" ++ s ++ "'"
  | .null => "None"
  | .bool true => "True"
  | .bool false => "False"
  | .num l => l
  | .arr es => "[" ++ pyReprList es ++ "]"
  | .obj fs => "\x7b" ++ pyReprFields fs ++ "\x7d"

end

/-! ## Retry with exponential backoff

Embedding of `retry_with_backoff` (review.py lines 39-79 and council.py
lines 33-62; the two copies have identical control flow, review.py only
additionally prints the response body of an HTTP error to stderr).
-/

/-- Response object attached to a `requests.exceptions.HTTPError`:
its status code and the result of `e.response.json()` — the parsed JSON
body, or `none` when the body is not valid JSON (in which case `.json()`
raises a `JSONDecodeError`). -/
structure ErrResponse where
  status : Nat
  body : Option Json
deriving Repr

/-- The `requests` exceptions that `retry_with_backoff` distinguishes.
`msg` is Python's `str(e)`.  An `httpError` may or may not carry a
response object (`e.response is not None`). -/
inductive ReqError where
  | timeout (msg : String)
  | connectionError (msg : String)
  | httpError (msg : String) (response : Option ErrResponse)
deriving Repr

/-- Whether `retry_with_backoff` treats the failure as transient:
timeouts and connection errors always; HTTP errors only when a response
object is attached and its status is >= 500 or = 429 (review.py lines
45-77, council.py lines 39-61). -/
def retryable : ReqError → Bool
  | .timeout _ => true
  | .connectionError _ => true
  | .httpError _ (some r) => decide (500 ≤ r.status) || decide (r.status = 429)
  | .httpError _ none => false

/-- Retry configuration (review.py lines 35-36, council.py lines 29-30). -/
def MAX_RETRIES : Nat := 3

/-- Initial backoff delay in seconds (review.py line 36, council.py line 30). -/
def INITIAL_BACKOFF_SECONDS : Nat := 2

/-- Wait before the retry following failed attempt number `attempt`
(0-based): `INITIAL_BACKOFF_SECONDS * (2 ** attempt)`. -/
def backoffWait (attempt : Nat) : Nat := INITIAL_BACKOFF_SECONDS * 2 ^ attempt

/-- Observable outcome of one `retry_with_backoff` run: the returned value
or raised exception, how many times the wrapped function was invoked, and
the list of `time.sleep` durations in order.  `result = .error none`
models the `raise last_error` with `last_error = None` (only reachable
when `max_retries = 0`, where Python raises a `TypeError`). -/
structure RetryTrace (α : Type) where
  result : Except (Option ReqError) α
  attempts : Nat
  waits : List Nat
deriving Repr

/-- The `for attempt in range(max_retries)` loop of `retry_with_backoff`,
iterating over the remaining attempt indices.  `op i` is the outcome of
the wrapped zero-argument function on its `i`-th invocation (0-based).
On a retryable failure at the last attempt the loop falls through and
re-raises the last error, which is the error of that attempt; on a
non-retryable HTTP error the bare `raise` propagates it at once. -/
def retryLoop (op : Nat → Except ReqError α) (max_retries : Nat) :
    List Nat → RetryTrace α
  | [] => { result := .error none, attempts := 0, waits := [] }
  | attempt :: rest =>
    match op attempt with
    | .ok a => { result := .ok a, attempts := 1, waits := [] }
    | .error e =>
      if retryable e then
        if attempt < max_retries - 1 then
          let r := retryLoop op max_retries rest
          { result := r.result, attempts := r.attempts + 1,
            waits := backoffWait attempt :: r.waits }
        else
          { result := .error (some e), attempts := 1, waits := [] }
      else
        { result := .error (some e), attempts := 1, waits := [] }

/-- Embedding of `retry_with_backoff(func, max_retries)`. -/
def retry_with_backoff (op : Nat → Except ReqError α) (max_retries : Nat) :
    RetryTrace α :=
  retryLoop op max_retries (List.range max_retries)

/-! ## Stream decoder

Embedding of the streaming branch of `call_openrouter` (review.py lines
559-584): the SSE line loop with `data: ` prefix stripping, the `[DONE]`
sentinel, `json.loads` with `JSONDecodeError` recovery, and the
`delta.content` extraction `data.get('choices', [{}])[0].get('delta',
{}).get('content', '')`.  Each line of `response.iter_lines()` is an
input string (byte decoding is outside the model). -/

/-- Outcome of the stream loop: the joined text and the number of
malformed chunks skipped, or an exception escaping the loop (which the
enclosing `except Exception` of `call_openrouter` then converts to an
`ERROR:` string). -/
inductive StreamOutcome where
  | ok (text : String) (malformedCount : Nat)
  | exn (msg : String)
deriving DecidableEq, Repr

/-- Models `line_str.startswith('data: ')` followed by `line_str[6:]`. -/
def dataPayload : List Char → Option (List Char)
  | 'd' :: 'a' :: 't' :: 'a' :: ':' :: ' ' :: rest => some rest
  | _ => none

/-- Python `str.strip()` on the payload (whitespace at both ends). -/
def stripEnds (cs : List Char) : List Char :=
  ((cs.dropWhile isJsonWs).reverse.dropWhile isJsonWs).reverse

/-- Content extraction from one parsed chunk, mirroring
`data.get('choices', [{}])[0].get('delta', {}).get('content', '')` and
the following `if content:` truthiness test.  `Except.error` models a
Python exception escaping the per-chunk code (only `json.JSONDecodeError`
is caught there): a non-dict `data`, a non-list `choices` value, an empty
`choices` list, or a non-dict element/`delta` all raise
(`AttributeError`, `TypeError`/`KeyError`, `IndexError`). -/
def sseContent (data : Json) : Except String (Option Json) :=
  match data with
  | .obj fields =>
    match (jsonLookup fields "choices").getD (.arr [.obj []]) with
    | .arr choices =>
      match choices.head? with
      | none => .error "IndexError: list index out of range"
      | some c0 =>
        match c0 with
        | .obj cf =>
          match (jsonLookup cf "delta").getD (.obj []) with
          | .obj df =>
            let content := (jsonLookup df "content").getD (.str "")
            .ok (if content.truthy then some content else none)
          | _ => .error "AttributeError: object has no attribute get"
        | _ => .error "AttributeError: object has no attribute get"
    | _ => .error "TypeError: object is not subscriptable"
  | _ => .error "AttributeError: object has no attribute get"

def Json.asStr : Json → Option String
  | .str s => some s
  | _ => none

/-- Models the final `''.join(full_content)`: joining raises `TypeError`
if any accumulated fragment is not a string (a truthy non-string
`content` value is appended as-is by the loop). -/
def sseJoin (acc : List Json) (malformed : Nat) : StreamOutcome :=
  match acc.mapM Json.asStr with
  | some ss => .ok (String.join ss) malformed
  | none => .exn "TypeError: sequence item expected str instance"

/-- The `for line in response.iter_lines()` loop: empty lines and lines
without the `data: ` prefix are skipped, `[DONE]` breaks, a chunk that
fails `json.loads` increments `malformed_count` and is skipped, an
extracted truthy content fragment is appended (and printed, which the
model ignores). -/
def streamLoop : List (List Char) → List Json → Nat → StreamOutcome
  | [], acc, malformed => sseJoin acc malformed
  | line :: rest, acc, malformed =>
    if line.isEmpty then streamLoop rest acc malformed
    else
      match dataPayload line with
      | none => streamLoop rest acc malformed
      | some payload =>
        if stripEnds payload = "[DONE]".data then sseJoin acc malformed
        else
          match jsonLoadsChars payload with
          | none => streamLoop rest acc (malformed + 1)
          | some data =>
            match sseContent data with
            | .error msg => .exn msg
            | .ok none => streamLoop rest acc malformed
            | .ok (some c) => streamLoop rest (acc ++ [c]) malformed

/-- Decode a full SSE stream as `call_openrouter`'s streaming branch does. -/
def decodeSSE (lines : List String) : StreamOutcome :=
  streamLoop (lines.map String.data) [] 0

/-! ## The `call_openrouter` error boundary

Embedding of the `try`/`except` of `call_openrouter` (review.py lines
556-601).  The outcome of `retry_with_backoff(make_request)` is an input:
either a streaming response (its lines) or a raised exception. -/

/-- Error-detail extraction of the `except HTTPError` clause of
`call_openrouter` (review.py lines 593-598):
`e.response.json().get("error", \x7b\x7d).get("message", "")`, guarded
only by `except (json.JSONDecodeError, KeyError, TypeError)`.  `.ok` is
the resulting detail — empty when there is no response object or its
body is not valid JSON (the `JSONDecodeError` from `.json()` is caught),
the stringified `message` value otherwise.  `.error` models the uncaught
`AttributeError` raised when the body parses to non-dict JSON, or its
`error` value is not a dict: the guard does not catch `AttributeError`,
so it escapes the `except HTTPError` clause (the sibling
`except Exception` clause of the same `try` does not apply to an
exception raised inside another handler) and propagates out of
`call_openrouter`. -/
def httpErrorDetail : Option ErrResponse → Except String String
  | none => .ok ""
  | some r =>
    match r.body with
    | none => .ok ""
    | some (.obj fields) =>
      match (jsonLookup fields "error").getD (.obj []) with
      | .obj ef => .ok (pyStr ((jsonLookup ef "message").getD (.str "")))
      | _ => .error "AttributeError: object has no attribute get"
    | some _ => .error "AttributeError: object has no attribute get"

/-- The streaming path of `call_openrouter` from the point the request
has been issued.  `.ok` is the string returned to the caller: on a
raised network error, the matching `except` clause's message (a
`ConnectionError` is not matched by the first two clauses and falls to
`except Exception`; `.error none`, review.py's `TypeError` from
`retry_with_backoff` with `max_retries = 0`, likewise); on a response,
the decoded stream text, with an exception escaping the loop caught by
`except Exception`.  `.error` is an exception escaping `call_openrouter`
itself, which can happen only inside the HTTP-error detail extraction. -/
def call_openrouter_stream (retryOutcome : Except (Option ReqError) (List String)) :
    Except String String :=
  match retryOutcome with
  | .error (some (.timeout _)) =>
    .ok "ERROR: Request timed out after retries. The model may be overloaded. Try again later."
  | .error (some (.httpError msg resp)) =>
    match httpErrorDetail resp with
    | .ok detail => .ok ("ERROR: API request failed: " ++ msg ++ "\n" ++ detail)
    | .error exc => .error exc
  | .error (some (.connectionError msg)) => .ok ("ERROR: Unexpected error: " ++ msg)
  | .error none => .ok "ERROR: Unexpected error: exceptions must derive from BaseException"
  | .ok lines =>
    match decodeSSE lines with
    | .ok text _ => .ok text
    | .exn msg => .ok ("ERROR: Unexpected error: " ++ msg)

/-- Decidable check that a content string carries the `ERROR:` marker
used throughout both scripts. -/
def beginsWithERROR (s : String) : Bool :=
  decide (s.data.take 6 = "ERROR:".data)

/-! ## Council (council.py)

Embedding of `get_council_config`, `extract_content`, `call_reviewer` and
the fan-out/collect/sort core of `run_council` (council.py lines 341-561).
The three concurrent API calls are modelled by two inputs: each member's
network outcome (the parsed JSON body, or the exception message when the
retried request raised or its body failed to parse) and the real-time
completion order, an arbitrary permutation of the member list. -/

/-- One council member descriptor as built by `get_council_config`. -/
structure CouncilMember where
  role : String
  model : String
  name : String
  search_engine : Option String
deriving DecidableEq, Repr

/-- The slice of `config.json` that the council core reads:
`council_models` overrides (a JSON object, so later duplicate keys win)
and `enable_web_search` (default false, council.py line 446). -/
structure Config where
  council_models : List (String × String)
  enable_web_search : Bool
deriving DecidableEq, Repr

/-- Default model per base role (council.py lines 67-71). -/
def DEFAULT_COUNCIL_MODELS : List (String × String) :=
  [("correctness", "openai/gpt-5.2"),
   ("performance", "google/gemini-3-pro-preview"),
   ("security", "x-ai/grok-4")]

/-- Last-occurrence lookup, matching Python dict construction from a
key/value list. -/
def lookupLast (l : List (String × α)) (key : String) : Option α :=
  l.foldl (fun acc kv => if kv.1 = key then some kv.2 else acc) none

/-- The merged model table `\x7b**DEFAULT_COUNCIL_MODELS, **council_models\x7d`
looked up at `role` (council.py lines 442-443). -/
def mergedModel (config : Config) (role : String) : String :=
  match lookupLast config.council_models role with
  | some m => m
  | none => (lookupLast DEFAULT_COUNCIL_MODELS role).getD ""

/-- Model id suffix when web search is enabled. -/
def onlineSuffix (config : Config) : String :=
  if config.enable_web_search then ":online" else ""

/-- Code council (council.py lines 448-468). -/
def codeCouncil (config : Config) : List CouncilMember :=
  [{ role := "correctness",
     model := mergedModel config "correctness" ++ onlineSuffix config,
     name := "Correctness Expert",
     search_engine := if config.enable_web_search then some "native" else none },
   { role := "performance",
     model := mergedModel config "performance" ++ onlineSuffix config,
     name := "Performance Critic",
     search_engine := if config.enable_web_search then some "exa" else none },
   { role := "security",
     model := mergedModel config "security" ++ onlineSuffix config,
     name := "Security Analyst",
     search_engine := if config.enable_web_search then some "exa" else none }]

/-- Plan council (council.py lines 469-489). -/
def planCouncil (config : Config) : List CouncilMember :=
  [{ role := "design",
     model := mergedModel config "correctness" ++ onlineSuffix config,
     name := "Design Expert",
     search_engine := if config.enable_web_search then some "native" else none },
   { role := "scalability",
     model := mergedModel config "performance" ++ onlineSuffix config,
     name := "Scalability Analyst",
     search_engine := if config.enable_web_search then some "exa" else none },
   { role := "security",
     model := mergedModel config "security" ++ onlineSuffix config,
     name := "Security Architect",
     search_engine := if config.enable_web_search then some "exa" else none }]

/-- Embedding of `get_council_config(config, council_type)`. -/
def get_council_config (config : Config) (council_type : String) :
    List CouncilMember :=
  if council_type = "code" then codeCouncil config else planCouncil config

/-- Embedding of council.py's `extract_content(result)` (lines 341-363).
`Except.ok` is the returned content value (the code can return a truthy
non-string `content` as-is, hence `Json`).  `Except.error` models an
exception that its `except (IndexError, KeyError, TypeError)` clause does
not catch — the `AttributeError` from calling `.get` on a non-dict, which
arises for any non-dict first `choices` element, a non-dict `message`
value, a truthy string `choices`, or a truthy non-dict `error` value —
and which therefore escapes to the caller (`call_reviewer` catches it and
takes its error-tagged failure path).  The exceptions it does catch —
`choices[0]` on a truthy dict (`KeyError`) or a truthy number/bool
(`TypeError`) — are folded into the returned
`ERROR: Unexpected response format:` string, with the interpolated
exception text approximated. -/
def extract_content (result : Json) : Except String Json :=
  match result with
  | .obj fields =>
    let choices := (jsonLookup fields "choices").getD (.arr [])
    if choices.truthy then
      match choices with
      | .arr elems =>
        match elems.head? with
        | none => .ok (.str "ERROR: Unexpected response format: list index out of range")
        | some c0 =>
          match c0 with
          | .obj cf =>
            match (jsonLookup cf "message").getD (.obj []) with
            | .obj mf =>
              let content := (jsonLookup mf "content").getD (.str "")
              if content.truthy then .ok content
              else
                let errv := (jsonLookup fields "error").getD .null
                if errv.truthy then
                  match errv with
                  | .obj ef =>
                    .ok (.str ("ERROR: " ++
                      pyStr ((jsonLookup ef "message").getD (.str "Unknown error"))))
                  | _ => .error "AttributeError: object has no attribute get"
                else .ok (.str "ERROR: Empty content in API response")
            | _ => .error "AttributeError: object has no attribute get"
          | _ => .error "AttributeError: object has no attribute get"
      | .obj _ => .ok (.str "ERROR: Unexpected response format: 0")
      | .str _ => .error "AttributeError: object has no attribute get"
      | _ => .ok (.str "ERROR: Unexpected response format: object is not subscriptable")
    else .ok (.str "ERROR: No choices in API response")
  | _ => .error "AttributeError: object has no attribute get"

/-- Token counts `result.get("usage", \x7b\x7d).get("prompt_tokens", 0)` /
`completion_tokens` (council.py lines 414-417); values are kept as the
JSON they hold.  `Except.error` models the `AttributeError` when the
`usage` value is not a dict. -/
def usageOf (result : Json) : Except String (Json × Json) :=
  match result with
  | .obj fields =>
    match (jsonLookup fields "usage").getD (.obj []) with
    | .obj uf =>
      .ok ((jsonLookup uf "prompt_tokens").getD (.num "0"),
           (jsonLookup uf "completion_tokens").getD (.num "0"))
    | _ => .error "AttributeError: object has no attribute get"
  | _ => .error "AttributeError: object has no attribute get"

/-- One entry of `run_council`'s `reviews` list, as built by
`call_reviewer` (council.py lines 403-427).  `error` is present exactly
on the exception path; `elapsed_ms` is the end-to-end measured duration,
a parameter of the model (a nonnegative integer by construction). -/
structure ReviewResult where
  role : String
  name : String
  model : String
  content : Json
  elapsed_ms : Nat
  tokens : Option (Json × Json)
  error : Option String
deriving Repr

/-- The `except Exception` branch of `call_reviewer` (council.py lines
419-427): `e` is `str(e)` of the caught exception. -/
def call_reviewer_failure (m : CouncilMember) (e : String) (elapsed_ms : Nat) :
    ReviewResult :=
  { role := m.role, name := m.name, model := m.model,
    content := .str ("ERROR: " ++ e ++ " (after " ++ toString MAX_RETRIES ++ " retries)"),
    elapsed_ms := elapsed_ms, tokens := none, error := some e }

/-- Embedding of `call_reviewer` from the point the request outcome is
known.  `net` is `.ok body` when the retried POST succeeded and its body
parsed as JSON `body`, and `.error msg` when the retry chain raised or
`resp.json()` failed; the dict literal evaluates `extract_content` before
the usage lookups, and any exception escaping either lands in the
`except Exception` branch. -/
def call_reviewer (m : CouncilMember) (net : Except String Json)
    (elapsed_ms : Nat) : ReviewResult :=
  match net with
  | .error e => call_reviewer_failure m e elapsed_ms
  | .ok result =>
    match extract_content result with
    | .error e => call_reviewer_failure m e elapsed_ms
    | .ok content =>
      match usageOf result with
      | .error e => call_reviewer_failure m e elapsed_ms
      | .ok (tin, tout) =>
        { role := m.role, name := m.name, model := m.model, content := content,
          elapsed_ms := elapsed_ms, tokens := some (tin, tout), error := none }

/-- Index assigned to `role` by the dict comprehension
`\x7br["role"]: i for i, r in enumerate(council)\x7d` starting at `i`
(a later duplicate role overwrites an earlier one). -/
def roleIndexFrom (i : Nat) : List CouncilMember → String → Option Nat
  | [], _ => none
  | m :: rest, role =>
    match roleIndexFrom (i + 1) rest role with
    | some j => some j
    | none => if m.role = role then some i else none

/-- The sort key `role_order.get(r["role"], 99)` (council.py lines
552-553). -/
def role_order (council : List CouncilMember) (role : String) : Nat :=
  (roleIndexFrom 0 council role).getD 99

/-- The collect-and-sort core of `run_council` (council.py lines 519-553):
results are collected in completion order (`arrival`, a permutation of
`council`) and then stably sorted by canonical role index.  Python's
`list.sort` is a stable sort by the key, which `List.insertionSort` with
the reflexive key comparison reproduces exactly. -/
def run_council_reviews (council : List CouncilMember)
    (outcomes : CouncilMember → Except String Json)
    (elapsed : CouncilMember → Nat) (arrival : List CouncilMember) :
    List ReviewResult :=
  let collected := arrival.map (fun m => call_reviewer m (outcomes m) (elapsed m))
  collected.insertionSort
    (fun a b => role_order council a.role ≤ role_order council b.role)

/-- Aggregate result of `run_council` (council.py lines 555-561). -/
structure CouncilRunResult where
  reviews : List ReviewResult
  total_ms : Nat
  council_type : String
deriving Repr

/-- Embedding of `run_council(context, review_type)` downstream of
config/prompt handling: the council type is `plan` only for a `plan`
review, the members come from `get_council_config`, and the reviews are
the collected, canonically re-sorted member results. -/
def run_council (config : Config) (review_type : String)
    (outcomes : CouncilMember → Except String Json)
    (elapsed : CouncilMember → Nat) (arrival : List CouncilMember)
    (total_ms : Nat) : CouncilRunResult :=
  let council_type := if review_type = "plan" then "plan" else "code"
  { reviews := run_council_reviews (get_council_config config council_type)
      outcomes elapsed arrival,
    total_ms := total_ms,
    council_type := council_type }

/-! ## Context renderer

Embedding of `build_user_message(context, review_type)` (review.py lines
355-420; council.py lines 274-338 is the same template with slightly
different interpolated fallback texts and never differs in which section
headers it emits).  The Python context is an untyped dict; the embedding
maps each field the function reads to an explicit optional field.  A
falsy value (missing key, empty string, empty list/dict) is represented
by `none` / `[]`; `some` of an empty record represents a truthy dict that
lacks the read keys.  The function appends string fragments to `parts`
and returns `''.join(parts)`; the embedding keeps the parts list, whose
join is the rendered prompt. -/

/-- One entry of `conversation_context["relevant_exchanges"]`. -/
structure ExchangeMsg where
  role : Option String
  content : Option String
deriving DecidableEq, Repr

/-- The `conversation_context` sub-dict fields read by the renderer. -/
structure ConversationContext where
  original_request : Option String
  approach_notes : Option String
  relevant_exchanges : Option (List ExchangeMsg)
  previous_review_findings : Option String
deriving DecidableEq, Repr

/-- The `pr_metadata` sub-dict fields read by the renderer; values are
kept as the strings they interpolate to. -/
structure PrMetadata where
  number : Option String
  title : Option String
  author : Option String
  head_branch : Option String
  base_branch : Option String
  additions : Option String
  deletions : Option String
  body : Option String
deriving DecidableEq, Repr

/-- The review context fields read by `build_user_message`. -/
structure ReviewContext where
  conversation_context : Option ConversationContext
  plan_content : Option String
  pr_metadata : Option PrMetadata
  diff : Option String
  file_contents : List (String × String)
  documentation : List (String × String)
  test_files : List (String × String)
  dependent_files : List (String × String)
deriving DecidableEq, Repr

/-- Python truthiness of an optional string field: present and non-empty. -/
def truthyStr : Option String → Option String
  | some s => if s = "" then none else some s
  | none => none

/-- One line of the `relevant_exchanges` loop (review.py lines 369-372):
`- **\x7brole\x7d:** \x7bcontent[:500]\x7d`. -/
def exchangeLine (msg : ExchangeMsg) : String :=
  "- **" ++ ((if msg.role = some "user" then "User" else "Agent") ++
    (":** " ++ (((msg.content.getD "").take 500) ++ "\n")))

/-- Parts appended for a truthy `conversation_context` (review.py lines
360-376). -/
def conversationParts (cc : ConversationContext) : List String :=
  ["## Developer Intent\n\n"]
  ++ (match truthyStr cc.original_request with
      | some r => ["**Original Request:** " ++ (r ++ "\n\n")]
      | none => [])
  ++ (match truthyStr cc.approach_notes with
      | some a => ["**Approach Notes:** " ++ (a ++ "\n\n")]
      | none => [])
  ++ (match cc.relevant_exchanges with
      | some msgs =>
        if msgs.isEmpty then []
        else ["**Relevant Discussion:**\n"] ++ msgs.map exchangeLine ++ ["\n"]
      | none => [])
  ++ (match truthyStr cc.previous_review_findings with
      | some p => ["**Prior Review Notes:** " ++ (p ++ "\n\n")]
      | none => [])
  ++ ["---\n\n"]

def intentParts (ctx : ReviewContext) : List String :=
  match ctx.conversation_context with
  | some cc => conversationParts cc
  | none => []

/-- Plan-mode primary content (review.py lines 378-381): note the
fallback text is used only when the key is missing, an empty string is
rendered as-is. -/
def planParts (ctx : ReviewContext) (review_type : String) : List String :=
  if review_type = "plan" then
    ["## Plan to Review\n", ctx.plan_content.getD "No plan content provided", "\n\n"]
  else []

/-- PR-metadata section (review.py lines 383-393), emitted only in `pr`
mode and for a truthy `pr_metadata`. -/
def prParts (ctx : ReviewContext) (review_type : String) : List String :=
  if review_type = "pr" then
    match ctx.pr_metadata with
    | some pr =>
      ["## Pull Request Information\n",
       "**PR #" ++ (pr.number.getD "N/A" ++ ("**: " ++ (pr.title.getD "No title" ++ "\n"))),
       "**Author**: " ++ (pr.author.getD "Unknown" ++ "\n"),
       "**Branch**: " ++ (pr.head_branch.getD "?" ++ (" → " ++ (pr.base_branch.getD "?" ++ "\n"))),
       "**Changes**: +" ++ (pr.additions.getD "0" ++ (" / -" ++ (pr.deletions.getD "0" ++ "\n\n")))]
      ++ (match truthyStr pr.body with
          | some b => ["### PR Description\n", b, "\n\n"]
          | none => [])
    | none => []
  else []

/-- Diff section (review.py lines 395-398). -/
def diffParts (ctx : ReviewContext) : List String :=
  match truthyStr ctx.diff with
  | some d => ["## Code Changes (Diff)\n```diff\n", d, "\n```\n\n"]
  | none => []

/-- Per-path subsection inside the fenced file sections (review.py lines
402-403, 412-413, 417-418). -/
def fencedEntry (pc : String × String) : String :=
  "### " ++ (pc.1 ++ ("\n```\n" ++ (pc.2 ++ "\n```\n\n")))

/-- Per-path subsection of the documentation section (review.py line 408). -/
def docEntry (pc : String × String) : String :=
  "### " ++ (pc.1 ++ ("\n" ++ (pc.2 ++ "\n\n")))

def filesParts (ctx : ReviewContext) : List String :=
  if ctx.file_contents.isEmpty then []
  else "## Full File Contents\n" :: ctx.file_contents.map fencedEntry

def docsParts (ctx : ReviewContext) : List String :=
  if ctx.documentation.isEmpty then []
  else "## Relevant Documentation\n" :: ctx.documentation.map docEntry

def testsParts (ctx : ReviewContext) : List String :=
  if ctx.test_files.isEmpty then []
  else "## Related Test Files\n" :: ctx.test_files.map fencedEntry

def depsParts (ctx : ReviewContext) : List String :=
  if ctx.dependent_files.isEmpty then []
  else "## Cross-File Dependencies\n" :: ctx.dependent_files.map fencedEntry

/-- The full `parts` list built by `build_user_message`, in append order. -/
def build_user_message_parts (ctx : ReviewContext) (review_type : String) :
    List String :=
  intentParts ctx ++ planParts ctx review_type ++ prParts ctx review_type
  ++ diffParts ctx ++ filesParts ctx ++ docsParts ctx ++ testsParts ctx
  ++ depsParts ctx

/-- The rendered prompt `''.join(parts)`. -/
def build_user_message (ctx : ReviewContext) (review_type : String) : String :=
  String.join (build_user_message_parts ctx review_type)

/-- The optional sections of the rendered prompt named by the spec. -/
inductive SectionId where
  | developerIntent
  | pullRequestInfo
  | codeChangesDiff
  | fullFileContents
  | relevantDocumentation
  | relatedTestFiles
  | crossFileDependencies
deriving DecidableEq, Repr

/-- The part that opens each optional section, exactly as the source
appends it (for the diff section the header line and the opening code
fence are appended as one fragment). -/
def sectionHeaderPart : SectionId → String
  | .developerIntent => "## Developer Intent\n\n"
  | .pullRequestInfo => "## Pull Request Information\n"
  | .codeChangesDiff => "## Code Changes (Diff)\n```diff\n"
  | .fullFileContents => "## Full File Contents\n"
  | .relevantDocumentation => "## Relevant Documentation\n"
  | .relatedTestFiles => "## Related Test Files\n"
  | .crossFileDependencies => "## Cross-File Dependencies\n"

def sectionHeaderStrings : List String :=
  ["## Developer Intent\n\n",
   "## Pull Request Information\n",
   "## Code Changes (Diff)\n```diff\n",
   "## Full File Contents\n",
   "## Relevant Documentation\n",
   "## Related Test Files\n",
   "## Cross-File Dependencies\n"]

/-- The claim's per-section presence condition: the corresponding
optional context field is present and non-empty (truthy). -/
@[reducible] def sectionFieldPresent (ctx : ReviewContext) : SectionId → Prop
  | .developerIntent => ctx.conversation_context.isSome = true
  | .pullRequestInfo => ctx.pr_metadata.isSome = true
  | .codeChangesDiff => (truthyStr ctx.diff).isSome = true
  | .fullFileContents => ctx.file_contents ≠ []
  | .relevantDocumentation => ctx.documentation ≠ []
  | .relatedTestFiles => ctx.test_files ≠ []
  | .crossFileDependencies => ctx.dependent_files ≠ []

/-- A context none of whose raw interpolated text values (the diff, the
plan content, the PR body) is itself literally one of the section-header
fragments.  Every other appended fragment embeds user text behind a fixed
non-header lead-in, so this is the only way user data could forge a
header part. -/
def CleanContext (ctx : ReviewContext) : Prop :=
  (∀ s, ctx.diff = some s → s ∉ sectionHeaderStrings) ∧
  (∀ s, ctx.plan_content = some s → s ∉ sectionHeaderStrings) ∧
  (∀ pr, ctx.pr_metadata = some pr → ∀ b, pr.body = some b → b ∉ sectionHeaderStrings)

/-! ## Context truncation

Embedding of the pre-transmission truncation of the rendered prompt,
on the character sequence of the message.  review.py lines 494-497:
`user_message[:max_context] + "\n\n[... truncated due to length ...]"`;
council.py lines 502-505: `user_message[:max_context] +
"\n\n[... truncated ...]"`. -/

/-- Suffix appended by review.py when it truncates. -/
def TRUNC_SUFFIX_REVIEW : List Char := "\n\n[... truncated due to length ...]".data

/-- Suffix appended by council.py when it truncates. -/
def TRUNC_SUFFIX_COUNCIL : List Char := "\n\n[... truncated ...]".data

def truncate_review_message (user_message : List Char) (max_context : Nat) :
    List Char :=
  if max_context < user_message.length
  then user_message.take max_context ++ TRUNC_SUFFIX_REVIEW
  else user_message

def truncate_council_message (user_message : List Char) (max_context : Nat) :
    List Char :=
  if max_context < user_message.length
  then user_message.take max_context ++ TRUNC_SUFFIX_COUNCIL
  else user_message

/-! ## Helper lemmas -/

/-- A string formed by appending anything to a string that itself starts
with the 6 characters `ERROR:` still starts with them. -/
lemma beginsWithERROR_append (s t : String) (h : beginsWithERROR s = true) :
    beginsWithERROR (s ++ t) = true := by
  simp only [beginsWithERROR, decide_eq_true_eq] at h ⊢
  have hlen : 6 ≤ s.data.length := by
    have h6 : (s.data.take 6).length = 6 := by rw [h]; rfl
    have hmin := List.length_take 6 s.data
    omega
  rw [String.data_append, List.take_append_of_le_length hlen]
  exact h

/-- The waits recorded by the retry loop over attempts `a, a+1, ...` are
the backoff of a consecutive run of attempt indices starting at `a`. -/
lemma retryLoop_waits_consecutive (op : Nat → Except ReqError α)
    (max_retries : Nat) :
    ∀ (n a : Nat), ∃ j,
      (retryLoop op max_retries (List.range' a n)).waits =
        (List.range' a j).map backoffWait := by
  intro n
  induction n with
  | zero => intro a; exact ⟨0, rfl⟩
  | succ n ih =>
    intro a
    rw [List.range'_succ]
    cases hop : op a with
    | ok v => exact ⟨0, by simp [retryLoop, hop]⟩
    | error e =>
      by_cases hre : retryable e
      · by_cases hlt : a < max_retries - 1
        · obtain ⟨j, hj⟩ := ih (a + 1)
          refine ⟨j + 1, ?_⟩
          simp [retryLoop, hop, hre, hlt, hj, List.range'_succ]
        · exact ⟨0, by simp [retryLoop, hop, hre, hlt]⟩
      · exact ⟨0, by simp [retryLoop, hop, hre]⟩

/-- The failure result's content string starts with `ERROR:`. -/
lemma call_reviewer_failure_content (m : CouncilMember) (e : String) (t : Nat) :
    ∃ s, (call_reviewer_failure m e t).content = .str s ∧
      beginsWithERROR s = true := by
  refine ⟨_, rfl, ?_⟩
  exact beginsWithERROR_append _ _
    (beginsWithERROR_append _ _ (beginsWithERROR_append "ERROR: " e (by decide)))

/-! ## Claim C3 -/

/-- C3: `retry_with_backoff` retries only on request timeout, connection
failure, or an HTTP error carrying a response with status >= 500 or 429,
up to 3 total attempts; exhausting the attempts re-raises the last
failure; a non-retryable error propagates on the first attempt.  In
particular a [500, 500, success] run makes exactly 3 attempts and
returns the success value, and a [400] run makes exactly 1 attempt and
propagates at once. -/
theorem retry_transient_policy :
    (∀ e : ReqError, retryable e = true ↔
      (∃ m, e = .timeout m) ∨ (∃ m, e = .connectionError m) ∨
      (∃ m r, e = .httpError m (some r) ∧ (500 ≤ r.status ∨ r.status = 429)))
  ∧ (∀ (op : Nat → Except ReqError String) (v : String) m1 m2 r1 r2,
      op 0 = .error (.httpError m1 (some r1)) → r1.status = 500 →
      op 1 = .error (.httpError m2 (some r2)) → r2.status = 500 →
      op 2 = .ok v →
      (retry_with_backoff op MAX_RETRIES).result = .ok v ∧
      (retry_with_backoff op MAX_RETRIES).attempts = 3)
  ∧ (∀ (op : Nat → Except ReqError String) m r,
      op 0 = .error (.httpError m (some r)) → r.status = 400 →
      (retry_with_backoff op MAX_RETRIES).result =
          .error (some (.httpError m (some r))) ∧
      (retry_with_backoff op MAX_RETRIES).attempts = 1)
  ∧ (∀ (op : Nat → Except ReqError String) e,
      op 0 = .error e → retryable e = false →
      (retry_with_backoff op MAX_RETRIES).result = .error (some e) ∧
      (retry_with_backoff op MAX_RETRIES).attempts = 1 ∧
      (retry_with_backoff op MAX_RETRIES).waits = [])
  ∧ (∀ (op : Nat → Except ReqError String) (e : Nat → ReqError),
      (∀ i, i < 3 → op i = .error (e i) ∧ retryable (e i) = true) →
      (retry_with_backoff op MAX_RETRIES).result = .error (some (e 2)) ∧
      (retry_with_backoff op MAX_RETRIES).attempts = 3)
  ∧ (∀ (op : Nat → Except ReqError String) e,
      op 0 = .error e → 2 ≤ (retry_with_backoff op MAX_RETRIES).attempts →
      retryable e = true) := by
  refine ⟨?_, ?_, ?_, ?_, ?_, ?_⟩
  · intro e
    cases e with
    | timeout m => simp [retryable]
    | connectionError m => simp [retryable]
    | httpError m resp =>
      cases resp with
      | none => simp [retryable]
      | some r =>
        simp only [retryable, Bool.or_eq_true, decide_eq_true_eq]
        constructor
        · intro h
          exact Or.inr (Or.inr ⟨m, r, rfl, h⟩)
        · intro hdis
          simp only [ReqError.httpError.injEq, Option.some.injEq,
            reduceCtorEq, exists_false, false_or] at hdis
          obtain ⟨m1, r1, ⟨hm, hr2⟩, hs⟩ := hdis
          subst hr2
          exact hs
  · intro op v m1 m2 r1 r2 h0 hs1 h1 hs2 h2
    have hr : List.range MAX_RETRIES = [0, 1, 2] := rfl
    constructor <;>
      simp [retry_with_backoff, hr, retryLoop, h0, h1, h2, retryable, hs1, hs2,
        MAX_RETRIES]
  · intro op m r h0 hs
    have hr : List.range MAX_RETRIES = [0, 1, 2] := rfl
    constructor <;> simp [retry_with_backoff, hr, retryLoop, h0, retryable, hs]
  · intro op e h0 hre
    have hr : List.range MAX_RETRIES = [0, 1, 2] := rfl
    refine ⟨?_, ?_, ?_⟩ <;> simp [retry_with_backoff, hr, retryLoop, h0, hre]
  · intro op e h
    obtain ⟨h0, hre0⟩ := h 0 (by omega)
    obtain ⟨h1, hre1⟩ := h 1 (by omega)
    obtain ⟨h2, hre2⟩ := h 2 (by omega)
    have hr : List.range MAX_RETRIES = [0, 1, 2] := rfl
    constructor <;>
      simp [retry_with_backoff, hr, retryLoop, h0, h1, h2, hre0, hre1, hre2,
        MAX_RETRIES]
  · intro op e h0 hatt
    by_contra hre
    have hre' : retryable e = false := by
      cases hr2 : retryable e
      · rfl
      · exact absurd hr2 hre
    have hr : List.range MAX_RETRIES = [0, 1, 2] := rfl
    rw [retry_with_backoff, hr] at hatt
    simp [retryLoop, h0, hre'] at hatt

/-- Witness for C3: a concrete [500, 500, success] operation makes 3
attempts and returns the success value. -/
theorem retry_transient_policy_witness :
    (retry_with_backoff
        (fun i => if i = 2 then .ok "done"
          else .error (.httpError "500 Server Error" (some { status := 500, body := none })))
        MAX_RETRIES).result = .ok "done" ∧
    (retry_with_backoff
        (fun i => if i = 2 then .ok "done"
          else .error (.httpError "500 Server Error" (some { status := 500, body := none })))
        MAX_RETRIES).attempts = 3 :=
  retry_transient_policy.2.1
    (fun i => if i = 2 then .ok "done"
      else .error (.httpError "500 Server Error" (some { status := 500, body := none })))
    "done" "500 Server Error" "500 Server Error"
    { status := 500, body := none } { status := 500, body := none }
    rfl rfl rfl rfl rfl

/-! ## Claim C4 -/

/-- C4 counterexample: with the defaults (3 total attempts, initial
delay 2) a fully retried run sleeps twice, 2 then 4; there is no third
wait of 8, contrary to the claimed successive waits 2, 4, 8. -/
theorem backoff_waits_counterexample :
    (retry_with_backoff
        (fun _ => (.error (.httpError "boom" (some { status := 500, body := none }))
          : Except ReqError String))
        MAX_RETRIES).waits = [2, 4] ∧
    (retry_with_backoff
        (fun _ => (.error (.httpError "boom" (some { status := 500, body := none }))
          : Except ReqError String))
        MAX_RETRIES).waits ≠ [2, 4, 8] := by
  constructor <;> decide

/-- C4 (amended): before each retry the executor waits
`INITIAL_BACKOFF_SECONDS * 2 ^ attempt` with attempt starting at 0 (the
waits of any run are the backoff values of the consecutive attempt
indices 0, 1, ...), and with the defaults a fully retried run performs
exactly two waits, 2 then 4 — the third attempt is the last and is not
followed by a wait. -/
theorem backoff_wait_schedule :
    (∀ (op : Nat → Except ReqError String) (max_retries : Nat), ∃ j,
      (retry_with_backoff op max_retries).waits = (List.range j).map backoffWait)
  ∧ (backoffWait 0 = 2 ∧ backoffWait 1 = 4 ∧ backoffWait 2 = 8)
  ∧ (∀ op : Nat → Except ReqError String,
      (∀ i, i < 3 → ∃ e, op i = .error e ∧ retryable e = true) →
      (retry_with_backoff op MAX_RETRIES).waits = [2, 4]) := by
  refine ⟨?_, by decide, ?_⟩
  · intro op max_retries
    obtain ⟨j, hj⟩ := retryLoop_waits_consecutive op max_retries max_retries 0
    exact ⟨j, by
      rw [retry_with_backoff, List.range_eq_range', hj, List.range_eq_range']⟩
  · intro op h
    obtain ⟨e0, h0, hre0⟩ := h 0 (by omega)
    obtain ⟨e1, h1, hre1⟩ := h 1 (by omega)
    obtain ⟨e2, h2, hre2⟩ := h 2 (by omega)
    have hr : List.range MAX_RETRIES = [0, 1, 2] := rfl
    simp [retry_with_backoff, hr, retryLoop, h0, h1, h2, hre0, hre1, hre2,
      MAX_RETRIES, backoffWait, INITIAL_BACKOFF_SECONDS]

/-- Witness for the amended C4 at a concrete always-500 operation. -/
theorem backoff_wait_schedule_witness :
    (retry_with_backoff
        (fun _ => (.error (.httpError "boom" (some { status := 500, body := none }))
          : Except ReqError String))
        MAX_RETRIES).waits = [2, 4] :=
  backoff_wait_schedule.2.2
    (fun _ => .error (.httpError "boom" (some { status := 500, body := none })))
    (fun _ _ => ⟨.httpError "boom" (some { status := 500, body := none }), rfl, rfl⟩)

/-! ## Claim C10 -/

/-- C10: an HTTP error carrying no response object propagates on the
first attempt with no retry and no wait, while the same status delivered
with a response (here 500) is retried. -/
theorem http_error_without_response_not_retried :
    (∀ (op : Nat → Except ReqError String) m, op 0 = .error (.httpError m none) →
      (retry_with_backoff op MAX_RETRIES).result =
          .error (some (.httpError m none)) ∧
      (retry_with_backoff op MAX_RETRIES).attempts = 1 ∧
      (retry_with_backoff op MAX_RETRIES).waits = [])
  ∧ (∀ (op : Nat → Except ReqError String) (v : String) m r, 500 ≤ r.status →
      op 0 = .error (.httpError m (some r)) → op 1 = .ok v →
      (retry_with_backoff op MAX_RETRIES).result = .ok v ∧
      (retry_with_backoff op MAX_RETRIES).attempts = 2 ∧
      (retry_with_backoff op MAX_RETRIES).waits = [2]) := by
  constructor
  · intro op m h0
    have hr : List.range MAX_RETRIES = [0, 1, 2] := rfl
    refine ⟨?_, ?_, ?_⟩ <;> simp [retry_with_backoff, hr, retryLoop, h0, retryable]
  · intro op v m r hs h0 h1
    have hr : List.range MAX_RETRIES = [0, 1, 2] := rfl
    refine ⟨?_, ?_, ?_⟩ <;>
      simp [retry_with_backoff, hr, retryLoop, h0, h1, retryable, hs,
        MAX_RETRIES, backoffWait, INITIAL_BACKOFF_SECONDS]

/-- Witness for C10: a concrete response-less HTTP error is raised after
one attempt, and a concrete 500-with-response succeeds on the retry. -/
theorem http_error_without_response_not_retried_witness :
    ((retry_with_backoff
        (fun _ => (.error (.httpError "bare" none) : Except ReqError String))
        MAX_RETRIES).attempts = 1 ∧
      (retry_with_backoff
        (fun _ => (.error (.httpError "bare" none) : Except ReqError String))
        MAX_RETRIES).waits = []) ∧
    ((retry_with_backoff
        (fun i => if i = 0
          then .error (.httpError "srv" (some { status := 500, body := none }))
          else .ok "recovered")
        MAX_RETRIES).result = .ok "recovered" ∧
      (retry_with_backoff
        (fun i => if i = 0
          then .error (.httpError "srv" (some { status := 500, body := none }))
          else .ok "recovered")
        MAX_RETRIES).attempts = 2) := by
  constructor
  · have h := http_error_without_response_not_retried.1
      (fun _ => (.error (.httpError "bare" none) : Except ReqError String)) "bare" rfl
    exact ⟨h.2.1, h.2.2⟩
  · have h := http_error_without_response_not_retried.2
      (fun i => if i = 0
        then .error (.httpError "srv" (some { status := 500, body := none }))
        else .ok "recovered")
      "recovered" "srv" { status := 500, body := none }
      (by decide) rfl rfl
    exact ⟨h.1, h.2.1⟩

/-- A line that yields a data payload is exactly the prefix characters
`data: ` followed by the payload. -/
lemma dataPayload_some (l p : List Char) (h : dataPayload l = some p) :
    l = 'd' :: 'a' :: 't' :: 'a' :: ':' :: ' ' :: p := by
  unfold dataPayload at h
  split at h
  · cases h
    rfl
  · cases h

/-- Inside the stream loop, every list of remaining lines each of which
is empty, non-`data: `-prefixed, the sentinel, or a chunk that fails
`json.loads`, yields the empty joined text (with some skip count). -/
lemma streamLoop_all_malformed (lines : List (List Char))
    (h : ∀ l ∈ lines, ∀ p, dataPayload l = some p →
      stripEnds p = "[DONE]".data ∨ jsonLoadsChars p = none) :
    ∀ k, ∃ k2, streamLoop lines [] k = .ok "" k2 := by
  induction lines with
  | nil => intro k; exact ⟨k, rfl⟩
  | cons l rest ih =>
    intro k
    have hrest : ∀ x ∈ rest, ∀ p, dataPayload x = some p →
        stripEnds p = "[DONE]".data ∨ jsonLoadsChars p = none :=
      fun x hx => h x (List.mem_cons_of_mem _ hx)
    by_cases he : l.isEmpty
    · rw [show streamLoop (l :: rest) [] k = streamLoop rest [] k from by
        simp [streamLoop, he]]
      exact ih hrest k
    · cases hp : dataPayload l with
      | none =>
        rw [show streamLoop (l :: rest) [] k = streamLoop rest [] k from by
          simp [streamLoop, he, hp]]
        exact ih hrest k
      | some p =>
        by_cases hd : stripEnds p = "[DONE]".data
        · refine ⟨k, ?_⟩
          have hstep : streamLoop (l :: rest) [] k = sseJoin [] k := by
            simp [streamLoop, he, hp, hd]
          rw [hstep]
          rfl
        · have hbad : jsonLoadsChars p = none := by
            rcases h l (List.mem_cons_self l rest) p hp with h1 | h1
            · exact absurd h1 hd
            · exact h1
          rw [show streamLoop (l :: rest) [] k = streamLoop rest [] (k + 1) from by
            simp [streamLoop, he, hp, hd, hbad]]
          exact ih hrest (k + 1)

/-! ## Claim C5 -/

/-- C5: on the streamed line sequence [A-chunk, malformed chunk, B-chunk,
DONE] the decoder returns exactly `AB` with the malformed payload skipped
and counted; processing halts at the `[DONE]` sentinel so a later data
line is not interpreted; lines lacking the `data: ` prefix (and empty
keep-alive lines) are ignored; a well-formed payload with no nested
content field contributes nothing. -/
theorem stream_decode_scenario :
    decodeSSE ["data: \x7b\"choices\":[\x7b\"delta\":\x7b\"content\":\"A\"\x7d\x7d]\x7d",
      "data: \x7bmalformed",
      "data: \x7b\"choices\":[\x7b\"delta\":\x7b\"content\":\"B\"\x7d\x7d]\x7d",
      "data: [DONE]"] = .ok "AB" 1
  ∧ decodeSSE ["data: \x7b\"choices\":[\x7b\"delta\":\x7b\"content\":\"A\"\x7d\x7d]\x7d",
      "data: \x7bmalformed",
      "data: \x7b\"choices\":[\x7b\"delta\":\x7b\"content\":\"B\"\x7d\x7d]\x7d",
      "data: [DONE]",
      "data: \x7b\"choices\":[\x7b\"delta\":\x7b\"content\":\"C\"\x7d\x7d]\x7d"] = .ok "AB" 1
  ∧ decodeSSE ["data: \x7b\"choices\":[\x7b\"delta\":\x7b\"content\":\"A\"\x7d\x7d]\x7d",
      "event: ping",
      "",
      "data: \x7b\"choices\":[\x7b\"delta\":\x7b\"role\":\"assistant\"\x7d\x7d]\x7d",
      "data: \x7b\"choices\":[\x7b\"delta\":\x7b\"content\":\"B\"\x7d\x7d]\x7d",
      "data: [DONE]"] = .ok "AB" 0 := by
  refine ⟨rfl, rfl, rfl⟩

/-! ## Claim C6 -/

/-- C6 counterexample: a streamed response in which every data payload is
malformed, so zero fragments are extracted, yields the silently empty
string to the caller, not an error. -/
theorem zero_content_stream_counterexample :
    decodeSSE ["data: \x7bbad", "data: \x7balso bad", "data: [DONE]"] = .ok "" 2
  ∧ call_openrouter_stream
      (.ok ["data: \x7bbad", "data: \x7balso bad", "data: [DONE]"]) = .ok ""
  ∧ beginsWithERROR "" = false :=
  ⟨rfl, rfl, by decide⟩

/-- C6 (amended): a malformed stream chunk is recovered locally — it is
skipped and counted and the loop continues — and is never surfaced to the
caller as an error, including when every payload is malformed: a stream
whose data payloads all fail parsing (or are the sentinel) produces the
empty string, not an error. -/
theorem malformed_chunks_recovered_locally :
    (∀ (line : List Char) (rest : List (List Char)) (acc : List Json)
        (k : Nat) (p : List Char),
      dataPayload line = some p → stripEnds p ≠ "[DONE]".data →
      jsonLoadsChars p = none →
      streamLoop (line :: rest) acc k = streamLoop rest acc (k + 1))
  ∧ (∀ lines : List String,
      (∀ l ∈ lines, ∀ p, dataPayload l.data = some p →
        stripEnds p = "[DONE]".data ∨ jsonLoadsChars p = none) →
      ∃ k2, decodeSSE lines = .ok "" k2) := by
  constructor
  · intro line rest acc k p hp hd hbad
    have hl := dataPayload_some line p hp
    subst hl
    simp [streamLoop, hp, hd, hbad]
  · intro lines h
    exact streamLoop_all_malformed (lines.map String.data)
      (by
        intro l hl p hp
        obtain ⟨s, hs, rfl⟩ := List.mem_map.mp hl
        exact h s hs p hp) 0

/-- Witness for the amended C6: a concrete malformed chunk is skipped and
counted, and a concrete fully-malformed stream decodes to the empty
string. -/
theorem malformed_chunks_recovered_locally_witness :
    streamLoop ["data: \x7bbad".data, "data: [DONE]".data] [] 0 =
      streamLoop ["data: [DONE]".data] [] 1
  ∧ ∃ k2, decodeSSE ["data: \x7bbad", "data: \x7balso bad", "data: [DONE]"] =
      .ok "" k2 := by
  constructor
  · exact malformed_chunks_recovered_locally.1 "data: \x7bbad".data
      ["data: [DONE]".data] [] 0 "\x7bbad".data rfl (by decide) rfl
  · refine malformed_chunks_recovered_locally.2
      ["data: \x7bbad", "data: \x7balso bad", "data: [DONE]"] ?_
    intro l hl p hp
    simp only [List.mem_cons, List.not_mem_nil, or_false] at hl
    rcases hl with rfl | rfl | rfl
    · injection hp with h2
      subst h2
      exact Or.inr rfl
    · injection hp with h2
      subst h2
      exact Or.inr rfl
    · injection hp with h2
      subst h2
      exact Or.inl (by decide)

/-! ## Claim C7 -/

/-- C7 counterexample: a non-retryable HTTP error whose response body is
the valid JSON `\x7b"error": null\x7d` makes the detail extraction
`e.response.json().get("error", \x7b\x7d).get("message", "")` raise
`AttributeError`, which `except (json.JSONDecodeError, KeyError,
TypeError)` does not catch: the exception escapes `call_openrouter`, so
`no exception ever propagates past this boundary` is false of the
program. -/
theorem openrouter_error_boundary_counterexample :
    call_openrouter_stream (.error (some (.httpError "400 Client Error"
        (some { status := 400, body := some (.obj [("error", .null)]) })))) =
      .error "AttributeError: object has no attribute get" := rfl

/-- C7 (amended): every network-layer failure surviving the retry
wrapper is returned by `call_openrouter` as a string beginning with
`ERROR:` and carrying the exception's text — except that an HTTP error
whose response body parses to non-dict JSON, or to a dict whose `error`
value is not a dict, raises an uncaught `AttributeError` out of the
error handler itself, and that exception does propagate to the caller.
Timeouts, connection errors, exceptions escaping the stream loop, and
HTTP errors whose detail extraction succeeds never raise.  The council's
`call_reviewer` boundary never raises: every result either carries no
error tag or carries an `ERROR:`-prefixed content string. -/
theorem openrouter_error_boundary :
    (∀ m, ∃ s, call_openrouter_stream (.error (some (.timeout m))) = .ok s ∧
      beginsWithERROR s = true)
  ∧ (∀ m, ∃ s, call_openrouter_stream (.error (some (.connectionError m))) = .ok s ∧
      beginsWithERROR s = true)
  ∧ (∀ m resp detail, httpErrorDetail resp = .ok detail →
      ∃ s, call_openrouter_stream (.error (some (.httpError m resp))) = .ok s ∧
        beginsWithERROR s = true)
  ∧ (∀ m resp exc, httpErrorDetail resp = .error exc →
      call_openrouter_stream (.error (some (.httpError m resp))) = .error exc)
  ∧ (∀ (lines : List String) (msg : String), decodeSSE lines = .exn msg →
      ∃ s, call_openrouter_stream (.ok lines) = .ok s ∧ beginsWithERROR s = true)
  ∧ (∀ (m : CouncilMember) (net : Except String Json) (t : Nat),
      (call_reviewer m net t).error = none ∨
        ∃ s, (call_reviewer m net t).content = .str s ∧
          beginsWithERROR s = true) := by
  refine ⟨?_, ?_, ?_, ?_, ?_, ?_⟩
  · intro m
    exact ⟨_, rfl, by decide⟩
  · intro m
    exact ⟨_, rfl,
      beginsWithERROR_append "ERROR: Unexpected error: " m (by decide)⟩
  · intro m resp detail h
    refine ⟨"ERROR: API request failed: " ++ m ++ "\n" ++ detail, ?_, ?_⟩
    · show (match httpErrorDetail resp with
        | .ok detail => .ok ("ERROR: API request failed: " ++ m ++ "\n" ++ detail)
        | .error exc => .error exc) =
          Except.ok ("ERROR: API request failed: " ++ m ++ "\n" ++ detail)
      rw [h]
    · exact beginsWithERROR_append _ _
        (beginsWithERROR_append _ _
          (beginsWithERROR_append "ERROR: API request failed: " m (by decide)))
  · intro m resp exc h
    show (match httpErrorDetail resp with
      | .ok detail => .ok ("ERROR: API request failed: " ++ m ++ "\n" ++ detail)
      | .error exc => .error exc) = Except.error exc
    rw [h]
  · intro lines msg h
    refine ⟨"ERROR: Unexpected error: " ++ msg, ?_, ?_⟩
    · show (match decodeSSE lines with
        | .ok text _ => Except.ok text
        | .exn msg => .ok ("ERROR: Unexpected error: " ++ msg)) =
          Except.ok ("ERROR: Unexpected error: " ++ msg)
      rw [h]
    · exact beginsWithERROR_append "ERROR: Unexpected error: " msg (by decide)
  · intro m net t
    rcases net with e | result
    · exact Or.inr (call_reviewer_failure_content m e t)
    · rcases hex : extract_content result with e | content
      · rw [show call_reviewer m (.ok result) t = call_reviewer_failure m e t from by
          simp [call_reviewer, hex]]
        exact Or.inr (call_reviewer_failure_content m e t)
      · rcases hus : usageOf result with e2 | ⟨tin, tout⟩
        · rw [show call_reviewer m (.ok result) t = call_reviewer_failure m e2 t from by
            simp [call_reviewer, hex, hus]]
          exact Or.inr (call_reviewer_failure_content m e2 t)
        · rw [show call_reviewer m (.ok result) t =
            { role := m.role, name := m.name, model := m.model, content := content,
              elapsed_ms := t, tokens := some (tin, tout), error := none } from by
            simp [call_reviewer, hex, hus]]
          exact Or.inl rfl

/-- Witness for the amended C7: a timeout, an HTTP 502 with an
extractable detail message, an HTTP 400 with a `\x7b"error": null\x7d`
body whose handler raises, and a stream whose first chunk raises inside
the loop. -/
theorem openrouter_error_boundary_witness :
    (∃ s, call_openrouter_stream (.error (some (.timeout "timed out"))) = .ok s ∧
      beginsWithERROR s = true)
  ∧ (∃ s, call_openrouter_stream (.error (some (.httpError "502 Bad Gateway"
      (some { status := 502, body := some (.obj [("error",
        .obj [("message", .str "overloaded")])]) })))) = .ok s ∧
      beginsWithERROR s = true)
  ∧ call_openrouter_stream (.error (some (.httpError "400 Client Error"
      (some { status := 400, body := some (.obj [("error", .bool true)]) })))) =
      .error "AttributeError: object has no attribute get"
  ∧ (∃ s, call_openrouter_stream (.ok ["data: [1,2]"]) = .ok s ∧
      beginsWithERROR s = true) :=
  ⟨openrouter_error_boundary.1 "timed out",
   openrouter_error_boundary.2.2.1 "502 Bad Gateway"
     (some { status := 502, body := some (.obj [("error",
       .obj [("message", .str "overloaded")])]) }) "overloaded" rfl,
   openrouter_error_boundary.2.2.2.1 "400 Client Error"
     (some { status := 400, body := some (.obj [("error", .bool true)]) })
     "AttributeError: object has no attribute get" rfl,
   openrouter_error_boundary.2.2.2.2.1 ["data: [1,2]"]
     "AttributeError: object has no attribute get" rfl⟩

/-! ## Claim C8 -/

/-- C8 counterexample: the single-reviewer path appends
`\n\n[... truncated due to length ...]`, so with `L = 5` and an 11-char
prompt the transmitted message neither ends with the claimed marker
`[... truncated ...]` nor fits in `L + len("[... truncated ...]")`
characters. -/
theorem truncation_marker_counterexample :
    ¬("[... truncated ...]".data <:+ truncate_review_message "0123456789!".data 5)
  ∧ ¬((truncate_review_message "0123456789!".data 5).length ≤
        5 + "[... truncated ...]".data.length)
  ∧ truncate_review_message "0123456789!".data 5 =
      "01234".data ++ TRUNC_SUFFIX_REVIEW := by
  refine ⟨by decide, by decide, by decide⟩

/-- C8 (amended): a rendered prompt strictly longer than the configured
maximum `L` is cut to its first `L` characters and a fixed suffix is
appended — `\n\n[... truncated ...]` on the council path and
`\n\n[... truncated due to length ...]` on the single-reviewer path — so
the transmitted length is exactly `L` plus that suffix's length and the
message ends with the respective suffix (the council message therefore
ends with `[... truncated ...]`); a prompt of length at most `L` is
transmitted unchanged with no marker. -/
theorem truncation_bound :
    (∀ (msg : List Char) (L : Nat), L < msg.length →
      (truncate_council_message msg L).length = L + TRUNC_SUFFIX_COUNCIL.length
      ∧ TRUNC_SUFFIX_COUNCIL <:+ truncate_council_message msg L
      ∧ "[... truncated ...]".data <:+ truncate_council_message msg L
      ∧ (truncate_review_message msg L).length = L + TRUNC_SUFFIX_REVIEW.length
      ∧ TRUNC_SUFFIX_REVIEW <:+ truncate_review_message msg L)
  ∧ (∀ (msg : List Char) (L : Nat), msg.length ≤ L →
      truncate_council_message msg L = msg ∧
      truncate_review_message msg L = msg) := by
  constructor
  · intro msg L h
    have hc : truncate_council_message msg L =
        msg.take L ++ TRUNC_SUFFIX_COUNCIL := by
      simp [truncate_council_message, h]
    have hv : truncate_review_message msg L =
        msg.take L ++ TRUNC_SUFFIX_REVIEW := by
      simp [truncate_review_message, h]
    have htake : (msg.take L).length = L := by
      have := List.length_take L msg
      omega
    refine ⟨?_, ?_, ?_, ?_, ?_⟩
    · rw [hc, List.length_append, htake]
    · rw [hc]; exact List.suffix_append _ _
    · rw [hc]
      exact List.IsSuffix.trans (by decide) (List.suffix_append _ _)
    · rw [hv, List.length_append, htake]
    · rw [hv]; exact List.suffix_append _ _
  · intro msg L h
    constructor
    · simp [truncate_council_message, Nat.not_lt.mpr h]
    · simp [truncate_review_message, Nat.not_lt.mpr h]

/-- Witness for the amended C8 at a concrete over-long and a concrete
short prompt. -/
theorem truncation_bound_witness :
    ((truncate_council_message "abcdefgh".data 3).length =
        3 + TRUNC_SUFFIX_COUNCIL.length
      ∧ "[... truncated ...]".data <:+ truncate_council_message "abcdefgh".data 3)
  ∧ truncate_review_message "ok".data 5 = "ok".data := by
  constructor
  · have h := truncation_bound.1 "abcdefgh".data 3 (by decide)
    exact ⟨h.1, h.2.2.1⟩
  · exact (truncation_bound.2 "ok".data 5 (by decide)).2

/-- A pairwise nondecreasing list whose keys are pairwise distinct is
pairwise strictly increasing. -/
lemma pairwise_lt_of_le_of_nodup {α : Type} (key : α → Nat) (l : List α)
    (hs : l.Pairwise (fun x y => key x ≤ key y)) (hn : (l.map key).Nodup) :
    l.Pairwise (fun x y => key x < key y) := by
  have hne : l.Pairwise (fun x y => key x ≠ key y) := List.pairwise_map.mp hn
  exact (hs.and hne).imp (fun h => lt_of_le_of_ne h.1 h.2)

/-- Two lists that are permutations of each other and both strictly
sorted by a Nat key are equal. -/
lemma perm_strictly_sorted_unique {α : Type} (key : α → Nat) (l₁ l₂ : List α)
    (hp : l₁.Perm l₂) (h₁ : l₁.Pairwise (fun x y => key x < key y))
    (h₂ : l₂.Pairwise (fun x y => key x < key y)) : l₁ = l₂ := by
  haveI : IsAntisymm α (fun x y => key x < key y) :=
    ⟨fun a b hab hba => absurd (hab.trans hba) (lt_irrefl _)⟩
  exact List.eq_of_perm_of_sorted hp h₁ h₂

/-- Both branches of `call_reviewer` tag the result with the member's
role. -/
lemma call_reviewer_role (m : CouncilMember) (net : Except String Json)
    (t : Nat) : (call_reviewer m net t).role = m.role := by
  rcases net with e | result
  · rfl
  · rcases hex : extract_content result with e | content
    · simp [call_reviewer, hex, call_reviewer_failure]
    · rcases hus : usageOf result with e2 | ⟨tin, tout⟩
      · simp [call_reviewer, hex, hus, call_reviewer_failure]
      · simp [call_reviewer, hex, hus]

/-- Both branches of `call_reviewer` record the measured elapsed time. -/
lemma call_reviewer_elapsed (m : CouncilMember) (net : Except String Json)
    (t : Nat) : (call_reviewer m net t).elapsed_ms = t := by
  rcases net with e | result
  · rfl
  · rcases hex : extract_content result with e | content
    · simp [call_reviewer, hex, call_reviewer_failure]
    · rcases hus : usageOf result with e2 | ⟨tin, tout⟩
      · simp [call_reviewer, hex, hus, call_reviewer_failure]
      · simp [call_reviewer, hex, hus]

/-- Sorting the results of any completion order by the canonical role
index reproduces the council's own order, whenever the council's three
roles are assigned the distinct indices 0, 1, 2. -/
lemma run_council_reviews_canonical (council : List CouncilMember)
    (outcomes : CouncilMember → Except String Json)
    (elapsed : CouncilMember → Nat) (arrival : List CouncilMember)
    (hkeys : council.map (fun m => role_order council m.role) = [0, 1, 2])
    (hp : arrival.Perm council) :
    run_council_reviews council outcomes elapsed arrival =
      council.map (fun m => call_reviewer m (outcomes m) (elapsed m)) := by
  classical
  have hgoal : run_council_reviews council outcomes elapsed arrival =
      (arrival.map (fun m => call_reviewer m (outcomes m) (elapsed m))).insertionSort
        (fun a b => role_order council a.role ≤ role_order council b.role) := rfl
  haveI : IsTotal ReviewResult
      (fun a b => role_order council a.role ≤ role_order council b.role) :=
    ⟨fun a b => Nat.le_total _ _⟩
  haveI : IsTrans ReviewResult
      (fun a b => role_order council a.role ≤ role_order council b.role) :=
    ⟨fun a b c => Nat.le_trans⟩
  have hcanon_keys :
      ((council.map (fun m => call_reviewer m (outcomes m) (elapsed m))).map
        (fun r => role_order council r.role)) = [0, 1, 2] := by
    rw [List.map_map, ← hkeys]
    apply List.map_congr_left
    intro m hm
    simp only [Function.comp_apply, call_reviewer_role]
  have hcanon_lt :
      (council.map (fun m => call_reviewer m (outcomes m) (elapsed m))).Pairwise
        (fun x y => role_order council x.role < role_order council y.role) := by
    have h012 :
        (((council.map (fun m => call_reviewer m (outcomes m) (elapsed m))).map
          (fun r => role_order council r.role)).Pairwise (fun a b => a < b)) := by
      rw [hcanon_keys]
      decide
    exact List.pairwise_map.mp h012
  have hperm1 :
      ((arrival.map (fun m => call_reviewer m (outcomes m) (elapsed m)))).Perm
        (council.map (fun m => call_reviewer m (outcomes m) (elapsed m))) :=
    hp.map _
  have hsorted := List.sorted_insertionSort
    (fun a b : ReviewResult => role_order council a.role ≤ role_order council b.role)
    (arrival.map (fun m => call_reviewer m (outcomes m) (elapsed m)))
  have hperm2 :
      ((arrival.map (fun m => call_reviewer m (outcomes m) (elapsed m))).insertionSort
        (fun a b => role_order council a.role ≤ role_order council b.role)).Perm
        (council.map (fun m => call_reviewer m (outcomes m) (elapsed m))) :=
    (List.perm_insertionSort _ _).trans hperm1
  have hnodup :
      (((arrival.map (fun m => call_reviewer m (outcomes m) (elapsed m))).insertionSort
        (fun a b => role_order council a.role ≤ role_order council b.role)).map
        (fun r => role_order council r.role)).Nodup := by
    have hiff := (hperm2.map (fun r => role_order council r.role)).nodup_iff
    rw [hcanon_keys] at hiff
    exact hiff.mpr (by decide)
  have hsort_lt :=
    pairwise_lt_of_le_of_nodup (fun r : ReviewResult => role_order council r.role)
      _ hsorted hnodup
  rw [hgoal]
  exact perm_strictly_sorted_unique
    (fun r : ReviewResult => role_order council r.role) _ _
    hperm2 hsort_lt hcanon_lt

/-- The code council's three roles get canonical indices 0, 1, 2. -/
lemma codeCouncil_keys (config : Config) :
    (codeCouncil config).map
      (fun m => role_order (codeCouncil config) m.role) = [0, 1, 2] := rfl

/-- The plan council's three roles get canonical indices 0, 1, 2. -/
lemma planCouncil_keys (config : Config) :
    (planCouncil config).map
      (fun m => role_order (planCouncil config) m.role) = [0, 1, 2] := rfl

/-- Whatever the requested council type string, the resolved council's
roles are assigned the canonical indices 0, 1, 2. -/
lemma get_council_config_keys (config : Config) (council_type : String) :
    (get_council_config config council_type).map
      (fun m => role_order (get_council_config config council_type) m.role) =
      [0, 1, 2] := by
  by_cases hct : council_type = "code"
  · rw [show get_council_config config council_type = codeCouncil config from by
      simp [get_council_config, hct]]
    exact codeCouncil_keys config
  · rw [show get_council_config config council_type = planCouncil config from by
      simp [get_council_config, hct]]
    exact planCouncil_keys config

/-! ## Claim C2 -/

/-- C2: for every council run and every real-time completion order of
the three member calls (any permutation of the members), the sorted
result equals the member list mapped in the council's own order, whose
role sequence is the fixed canonical one — correctness, performance,
security for the code council and design, scalability, security for the
plan council.  Completion order never affects output order. -/
theorem council_canonical_order :
    (∀ (config : Config) (council_type : String)
        (outcomes : CouncilMember → Except String Json)
        (elapsed : CouncilMember → Nat) (arrival : List CouncilMember),
      arrival.Perm (get_council_config config council_type) →
      run_council_reviews (get_council_config config council_type)
          outcomes elapsed arrival =
        (get_council_config config council_type).map
          (fun m => call_reviewer m (outcomes m) (elapsed m)))
  ∧ (∀ config : Config,
      (get_council_config config "code").map CouncilMember.role =
        ["correctness", "performance", "security"])
  ∧ (∀ config : Config,
      (get_council_config config "plan").map CouncilMember.role =
        ["design", "scalability", "security"]) := by
  refine ⟨?_, fun config => rfl, fun config => rfl⟩
  intro config council_type outcomes elapsed arrival hp
  exact run_council_reviews_canonical _ outcomes elapsed arrival
    (get_council_config_keys config council_type) hp

/-- Witness for C2: a concrete run whose members complete in reversed
order still returns the canonical order. -/
theorem council_canonical_order_witness :
    run_council_reviews
        (get_council_config { council_models := [], enable_web_search := false } "code")
        (fun _ => .error "boom") (fun _ => 7)
        ((get_council_config { council_models := [], enable_web_search := false } "code").reverse) =
      (get_council_config { council_models := [], enable_web_search := false } "code").map
        (fun m => call_reviewer m (.error "boom") 7) :=
  council_canonical_order.1 { council_models := [], enable_web_search := false }
    "code" (fun _ => .error "boom") (fun _ => 7)
    ((get_council_config { council_models := [], enable_web_search := false } "code").reverse)
    (by decide)

/-! ## Claim C1 -/

/-- C1: every council run returns exactly one review per configured
member — 3 in total — even when some member calls fail: a failed member
still contributes a `ReviewResult` whose content is a string beginning
with `ERROR:` and which carries the `error` tag, never an omitted slot,
and every entry carries the member's measured elapsed-milliseconds value
(a `Nat`, hence a nonnegative integer, populated on success and failure
alike). -/
theorem council_complete_even_on_failure
    (config : Config) (review_type : String)
    (outcomes : CouncilMember → Except String Json)
    (elapsed : CouncilMember → Nat) (arrival : List CouncilMember)
    (total_ms : Nat) (council : List CouncilMember)
    (hc : council = get_council_config config
      (if review_type = "plan" then "plan" else "code"))
    (hp : arrival.Perm council) :
    (run_council config review_type outcomes elapsed arrival total_ms).reviews.length = 3
  ∧ (run_council config review_type outcomes elapsed arrival total_ms).reviews.map
      ReviewResult.role = council.map CouncilMember.role
  ∧ (∀ m ∈ council, ∀ e, outcomes m = .error e →
      call_reviewer_failure m e (elapsed m) ∈
        (run_council config review_type outcomes elapsed arrival total_ms).reviews
      ∧ (call_reviewer_failure m e (elapsed m)).error = some e
      ∧ ∃ s, (call_reviewer_failure m e (elapsed m)).content = .str s
          ∧ beginsWithERROR s = true)
  ∧ (∀ r ∈ (run_council config review_type outcomes elapsed arrival total_ms).reviews,
      ∃ m ∈ council, r.elapsed_ms = elapsed m ∧ (0 : Int) ≤ (r.elapsed_ms : Int)) := by
  have hrev : (run_council config review_type outcomes elapsed arrival total_ms).reviews =
      run_council_reviews council outcomes elapsed arrival := by
    rw [hc]
    rfl
  have hcanon : run_council_reviews council outcomes elapsed arrival =
      council.map (fun m => call_reviewer m (outcomes m) (elapsed m)) := by
    apply run_council_reviews_canonical _ outcomes elapsed arrival _ hp
    rw [hc]
    exact get_council_config_keys config _
  have hlen3 : council.length = 3 := by
    rw [hc]
    by_cases hct : (if review_type = "plan" then "plan" else "code") = "code" <;>
      simp [get_council_config, hct, codeCouncil, planCouncil]
  refine ⟨?_, ?_, ?_, ?_⟩
  · rw [hrev, hcanon, List.length_map, hlen3]
  · rw [hrev, hcanon, List.map_map]
    apply List.map_congr_left
    intro m hm
    simp only [Function.comp_apply, call_reviewer_role]
  · intro m hm e he
    refine ⟨?_, rfl, call_reviewer_failure_content m e (elapsed m)⟩
    rw [hrev, hcanon]
    have : call_reviewer_failure m e (elapsed m) =
        call_reviewer m (outcomes m) (elapsed m) := by
      rw [he]
      rfl
    rw [this]
    exact List.mem_map_of_mem _ hm
  · intro r hr
    rw [hrev, hcanon] at hr
    obtain ⟨m, hm, rfl⟩ := List.mem_map.mp hr
    exact ⟨m, hm, call_reviewer_elapsed m (outcomes m) (elapsed m), by positivity⟩

/-- Witness for C1: a concrete code-council run in which the security
member's call raises on every attempt still yields 3 reviews, with the
failed slot tagged and `ERROR:`-prefixed. -/
theorem council_complete_even_on_failure_witness :
    (run_council { council_models := [], enable_web_search := false } "code"
        (fun m => if m.role = "security" then .error "boom"
          else .ok (.obj [("choices",
            .arr [.obj [("message", .obj [("content", .str "fine")])]])]))
        (fun _ => 5)
        ((get_council_config { council_models := [], enable_web_search := false } "code").reverse)
        123).reviews.length = 3 :=
  (council_complete_even_on_failure
    { council_models := [], enable_web_search := false } "code"
    (fun m => if m.role = "security" then .error "boom"
      else .ok (.obj [("choices",
        .arr [.obj [("message", .obj [("content", .str "fine")])]])]))
    (fun _ => 5)
    ((get_council_config { council_models := [], enable_web_search := false } "code").reverse)
    123
    (get_council_config { council_models := [], enable_web_search := false } "code")
    rfl (by decide)).1

/-! ### Renderer helper lemmas for C9 -/

/-- Every section-header fragment starts with the three characters
`##` and a space. -/
lemma header_lead (t : String) (ht : t ∈ sectionHeaderStrings) :
    t.data.take 3 = ['#', '#', ' '] := by
  simp only [sectionHeaderStrings, List.mem_cons, List.not_mem_nil, or_false] at ht
  rcases ht with rfl | rfl | rfl | rfl | rfl | rfl | rfl <;> rfl

/-- A fragment built by appending after a fixed lead-in whose first
three characters are not `## ` is never a section-header fragment. -/
lemma append_not_header (lit rest : String) (h3 : 3 ≤ lit.data.length)
    (hne : lit.data.take 3 ≠ ['#', '#', ' ']) :
    ∀ t ∈ sectionHeaderStrings, lit ++ rest ≠ t := by
  intro t ht heq
  apply hne
  have h := congrArg (fun s : String => s.data.take 3) heq
  simp only [String.data_append] at h
  rw [List.take_append_of_le_length h3] at h
  rw [h, header_lead t ht]

/-- A fixed fragment that is not itself one of the seven header
fragments differs from each of them. -/
lemma lit_not_header (s : String) (hs : s ∉ sectionHeaderStrings) :
    ∀ t ∈ sectionHeaderStrings, s ≠ t :=
  fun _ ht heq => hs (heq ▸ ht)

/-- Membership of a header fragment in the Developer Intent section:
only its own header, and only when the conversation context is truthy. -/
lemma header_mem_intentParts (ctx : ReviewContext) (t : String)
    (ht : t ∈ sectionHeaderStrings) :
    t ∈ intentParts ctx ↔
      (ctx.conversation_context.isSome = true ∧ t = "## Developer Intent\n\n") := by
  cases hcc : ctx.conversation_context with
  | none => simp [intentParts, hcc]
  | some cc =>
    simp only [intentParts, hcc, Option.isSome_some, true_and]
    constructor
    · intro hmem
      simp only [conversationParts, List.append_assoc, List.mem_append,
        List.mem_cons, List.not_mem_nil, or_false, List.mem_map] at hmem
      rcases hmem with rfl | hmem
      · rfl
      rcases hmem with hmem | hmem
      · rcases h1 : truthyStr cc.original_request with _ | r <;> rw [h1] at hmem
        · simp at hmem
        · simp only [List.mem_cons, List.not_mem_nil, or_false] at hmem
          exact absurd hmem.symm (append_not_header _ _ (by decide) (by decide) t ht)
      rcases hmem with hmem | hmem
      · rcases h2 : truthyStr cc.approach_notes with _ | a <;> rw [h2] at hmem
        · simp at hmem
        · simp only [List.mem_cons, List.not_mem_nil, or_false] at hmem
          exact absurd hmem.symm (append_not_header _ _ (by decide) (by decide) t ht)
      rcases hmem with hmem | hmem
      · rcases h3 : cc.relevant_exchanges with _ | msgs <;> rw [h3] at hmem
        · simp at hmem
        · dsimp only at hmem
          by_cases hemp : msgs.isEmpty = true
          · rw [if_pos hemp] at hmem
            simp at hmem
          · rw [if_neg hemp] at hmem
            simp only [List.mem_append, List.mem_cons, List.not_mem_nil, or_false,
              List.mem_map] at hmem
            rcases hmem with rfl | ⟨msg, hmsg, hline⟩ | rfl
            · exact absurd ht (by decide)
            · exact absurd hline (append_not_header "- **" _ (by decide) (by decide) t ht)
            · exact absurd ht (by decide)
      rcases hmem with hmem | hmem
      · rcases h4 : truthyStr cc.previous_review_findings with _ | p <;> rw [h4] at hmem
        · simp at hmem
        · simp only [List.mem_cons, List.not_mem_nil, or_false] at hmem
          exact absurd hmem.symm (append_not_header _ _ (by decide) (by decide) t ht)
      · exact absurd hmem.symm (lit_not_header "---\n\n" (by decide) t ht)
    · intro hdi
      subst hdi
      simp [intentParts, hcc, conversationParts]

/-- A truthy optional string is the present, non-empty value itself. -/
lemma truthyStr_some (o : Option String) (s : String)
    (h : truthyStr o = some s) : o = some s := by
  cases o with
  | none => cases h
  | some x =>
    simp only [truthyStr] at h
    by_cases hx : x = ""
    · rw [if_pos hx] at h
      cases h
    · rw [if_neg hx] at h
      injection h with h2
      rw [h2]

/-- No header fragment ever occurs among the plan-section parts. -/
lemma header_not_mem_planParts (ctx : ReviewContext) (mode t : String)
    (ht : t ∈ sectionHeaderStrings)
    (hclean : ∀ s, ctx.plan_content = some s → s ∉ sectionHeaderStrings) :
    t ∉ planParts ctx mode := by
  by_cases hm : mode = "plan"
  · rw [planParts, if_pos hm]
    intro hmem
    simp only [List.mem_cons, List.not_mem_nil, or_false] at hmem
    rcases hmem with rfl | hmem | rfl
    · exact absurd ht (by decide)
    · cases hpc : ctx.plan_content with
      | none =>
        rw [hpc, Option.getD_none] at hmem
        subst hmem
        exact absurd ht (by decide)
      | some s2 =>
        rw [hpc, Option.getD_some] at hmem
        subst hmem
        exact absurd ht (hclean _ hpc)
    · exact absurd ht (by decide)
  · simp [planParts, hm]

/-- Membership of a header fragment in the PR section: only its own
header, and only in `pr` mode with a truthy `pr_metadata`. -/
lemma header_mem_prParts (ctx : ReviewContext) (mode t : String)
    (ht : t ∈ sectionHeaderStrings)
    (hclean : ∀ pr, ctx.pr_metadata = some pr → ∀ b, pr.body = some b →
      b ∉ sectionHeaderStrings) :
    t ∈ prParts ctx mode ↔
      (mode = "pr" ∧ ctx.pr_metadata.isSome = true ∧
        t = "## Pull Request Information\n") := by
  by_cases hm : mode = "pr"
  · cases hpr : ctx.pr_metadata with
    | none => simp [prParts, hm, hpr]
    | some pr =>
      rw [prParts, if_pos hm]
      rw [hpr]
      simp only [hm, hpr, Option.isSome_some, true_and]
      constructor
      · intro hmem
        simp only [List.mem_append, List.mem_cons, List.not_mem_nil, or_false]
          at hmem
        rcases hmem with (rfl | hmem | hmem | hmem | hmem) | hmem
        · rfl
        · exact absurd hmem.symm
            (append_not_header "**PR #" _ (by decide) (by decide) t ht)
        · exact absurd hmem.symm
            (append_not_header "**Author**: " _ (by decide) (by decide) t ht)
        · exact absurd hmem.symm
            (append_not_header "**Branch**: " _ (by decide) (by decide) t ht)
        · exact absurd hmem.symm
            (append_not_header "**Changes**: +" _ (by decide) (by decide) t ht)
        · cases htb : truthyStr pr.body with
          | none =>
            rw [htb] at hmem
            simp at hmem
          | some b =>
            rw [htb] at hmem
            simp only [List.mem_cons, List.not_mem_nil, or_false] at hmem
            rcases hmem with rfl | rfl | rfl
            · exact absurd ht (by decide)
            · exact absurd ht (hclean pr hpr _ (truthyStr_some _ _ htb))
            · exact absurd ht (by decide)
      · intro hdi
        subst hdi
        simp
  · simp [prParts, hm]

/-- Membership of a header fragment in the diff section: only its own
header, and only for a truthy `diff`. -/
lemma header_mem_diffParts (ctx : ReviewContext) (t : String)
    (ht : t ∈ sectionHeaderStrings)
    (hclean : ∀ s, ctx.diff = some s → s ∉ sectionHeaderStrings) :
    t ∈ diffParts ctx ↔
      ((truthyStr ctx.diff).isSome = true ∧
        t = "## Code Changes (Diff)\n```diff\n") := by
  cases hd : truthyStr ctx.diff with
  | none => simp [diffParts, hd]
  | some d =>
    rw [diffParts, hd]
    simp only [hd, Option.isSome_some, true_and, List.mem_cons,
      List.not_mem_nil, or_false]
    constructor
    · rintro (rfl | rfl | rfl)
      · rfl
      · exact absurd ht (hclean _ (truthyStr_some _ _ hd))
      · exact absurd ht (by decide)
    · intro hdi
      exact Or.inl hdi

/-- Membership of a header fragment in one of the path-keyed sections
(full file contents, documentation, test files, dependencies): only the
section's own header line, and only when the map is non-empty; every
per-path entry starts with `### `. -/
lemma header_mem_fileLikeParts (entries : List (String × String))
    (hdr : String) (f : String × String → String)
    (hf : ∀ pc, ∃ rest, f pc = "### " ++ rest) (t : String)
    (ht : t ∈ sectionHeaderStrings) :
    t ∈ (if entries.isEmpty then [] else hdr :: entries.map f) ↔
      (entries ≠ [] ∧ t = hdr) := by
  by_cases he : entries.isEmpty
  · rw [if_pos he]
    simp [List.isEmpty_iff.mp he]
  · have hne : entries ≠ [] := by
      intro h0
      rw [h0] at he
      exact he rfl
    rw [if_neg he]
    simp only [List.mem_cons, List.mem_map, hne, ne_eq, not_false_iff, true_and]
    constructor
    · rintro (rfl | ⟨pc, hpc, hline⟩)
      · rfl
      · obtain ⟨rest, hrest⟩ := hf pc
        rw [hrest] at hline
        exact absurd hline (append_not_header "### " rest (by decide) (by decide) t ht)
    · intro h
      exact Or.inl h

/-! ## Claim C9 -/

/-- C9 counterexample: a context whose `pr_metadata` is present and
truthy, rendered in `code` mode, does not contain the Pull Request
Information header, so "header appears iff field present and non-empty"
fails as stated. -/
theorem section_header_iff_counterexample :
    ¬(sectionHeaderPart .pullRequestInfo ∈ build_user_message_parts
        (⟨none, none, some ⟨none, none, none, none, none, none, none, none⟩,
          none, [], [], [], []⟩ : ReviewContext) "code" ↔
      sectionFieldPresent
        (⟨none, none, some ⟨none, none, none, none, none, none, none, none⟩,
          none, [], [], [], []⟩ : ReviewContext) .pullRequestInfo) := by
  decide

/-- C9 (amended): for every context whose raw text fields (diff, plan
content, PR body) are not literally a section-header fragment, the
renderer emits an optional section's header fragment iff the
corresponding context field is present and non-empty — except that the
Pull Request Information header additionally requires the review mode to
be `pr`; an absent or empty field's header is never emitted. -/
theorem section_header_iff (ctx : ReviewContext) (mode : String)
    (sec : SectionId) (hclean : CleanContext ctx) :
    sectionHeaderPart sec ∈ build_user_message_parts ctx mode ↔
      (sectionFieldPresent ctx sec ∧
        (sec = SectionId.pullRequestInfo → mode = "pr")) := by
  obtain ⟨hcd, hcp, hcb⟩ := hclean
  have ht : sectionHeaderPart sec ∈ sectionHeaderStrings := by
    cases sec <;> decide
  have hfShape : ∀ pc : String × String, ∃ rest, fencedEntry pc = "### " ++ rest :=
    fun pc => ⟨_, rfl⟩
  have hdShape : ∀ pc : String × String, ∃ rest, docEntry pc = "### " ++ rest :=
    fun pc => ⟨_, rfl⟩
  simp only [build_user_message_parts, List.mem_append, filesParts, docsParts,
    testsParts, depsParts]
  rw [header_mem_intentParts ctx _ ht,
    iff_false_intro (header_not_mem_planParts ctx mode _ ht hcp),
    header_mem_prParts ctx mode _ ht hcb,
    header_mem_diffParts ctx _ ht hcd,
    header_mem_fileLikeParts ctx.file_contents "## Full File Contents\n"
      fencedEntry hfShape _ ht,
    header_mem_fileLikeParts ctx.documentation "## Relevant Documentation\n"
      docEntry hdShape _ ht,
    header_mem_fileLikeParts ctx.test_files "## Related Test Files\n"
      fencedEntry hfShape _ ht,
    header_mem_fileLikeParts ctx.dependent_files "## Cross-File Dependencies\n"
      fencedEntry hfShape _ ht]
  cases sec <;>
    · simp only [sectionHeaderPart, sectionFieldPresent]
      simp
      all_goals tauto

/-- Witness for the amended C9 at a concrete clean context holding only
a diff and one documentation file, in `code` mode. -/
theorem section_header_iff_witness :
    CleanContext
      (⟨none, none, none, some "x", [], [("doc.md", "hello")], [], []⟩ : ReviewContext)
  ∧ (sectionHeaderPart .codeChangesDiff ∈ build_user_message_parts
      (⟨none, none, none, some "x", [], [("doc.md", "hello")], [], []⟩ : ReviewContext)
      "code" ↔
      (sectionFieldPresent
        (⟨none, none, none, some "x", [], [("doc.md", "hello")], [], []⟩ : ReviewContext)
        .codeChangesDiff ∧
        (SectionId.codeChangesDiff = SectionId.pullRequestInfo → "code" = "pr"))) := by
  constructor
  · refine ⟨?_, ?_, ?_⟩
    · intro s h
      injection h with h2
      subst h2
      decide
    · intro s h
      exact Option.noConfusion h
    · intro pr h
      exact Option.noConfusion h
  · exact section_header_iff _ "code" .codeChangesDiff
      ⟨fun s h => by injection h with h2; subst h2; decide,
       fun s h => Option.noConfusion h,
       fun pr h => Option.noConfusion h⟩
